import Mathlib

/-!
Verification of the XFIFaucet contract (src/Smart Contract/contracts/XFIFaucet.sol)
against its natural-language specification.

Modelling conventions:
* `uint256` values are `Nat`.  Solidity 0.8 checked arithmetic reverts with a
  `Panic(0x11)` on overflow/underflow; we model such a revert as the error
  `FaucetError.ArithmeticRevert` and make every in-contract addition that can
  exceed `2^256 - 1` (and the one subtraction that can underflow) explicit.
* Addresses are `Nat` (the zero address is `0`).
* Solidity mappings are functions `Nat → Nat`, zero-valued by default.
* A transaction either fully commits (`Except.ok` carrying the new state and
  the emitted events) or fully reverts (`Except.error`); the EVM rollback is
  the fact that an erroring call yields no state at all — `applyOp` keeps the
  pre-state on error.
* The external ERC20 token is an untrusted collaborator: the contract's own
  balance is tracked as `poolBalance`, and the success of `transfer` /
  `transferFrom` is an explicit `Bool` input of each operation that calls it.
* `onlyOwner` operations are modelled as invoked by the owner (access control
  itself is OpenZeppelin `Ownable` and is not part of any claim).
-/

namespace XFIFaucet

/-- Largest `uint256` value. -/
def UINT_MAX : Nat := 2 ^ 256 - 1

/-- The contract's events (XFIFaucet.sol lines 32-35). -/
inductive Event where
  | TokensRequested (user amount : Nat)
  | FaucetConfigUpdated (tokensPerRequest cooldownTime maxTokensPerDay : Nat)
  | TokensWithdrawn (owner amount : Nat)
  | TokensDeposited (depositor amount : Nat)
deriving DecidableEq

/-- Revert reasons.  The first six are the contract's custom errors
(XFIFaucet.sol lines 38-43); `Paused` / `NotPaused` stand for the string
reverts of OpenZeppelin `Pausable`; `ArithmeticRevert` stands for the
Solidity 0.8 checked-arithmetic `Panic(0x11)`. -/
inductive FaucetError where
  | InsufficientFaucetBalance
  | CooldownActive (timeRemaining : Nat)
  | DailyLimitExceeded (currentLimit : Nat)
  | InvalidAmount
  | InvalidAddress
  | TransferFailed
  | Paused
  | NotPaused
  | ArithmeticRevert
deriving DecidableEq

/-- Pointwise update of a Solidity mapping. -/
def setMap (m : Nat → Nat) (k v : Nat) : Nat → Nat :=
  fun q => if q = k then v else m q

/-- The whole storage of the contract, together with its balance in the
external token ledger (`poolBalance`, what `xfiToken.balanceOf(address(this))`
returns) and the `Ownable` owner. -/
structure FaucetState where
  owner : Nat
  tokensPerRequest : Nat
  cooldownTime : Nat
  maxTokensPerDay : Nat
  minTokenBalance : Nat
  nextRequestTime : Nat → Nat
  dailyRequested : Nat → Nat
  lastRequestDay : Nat → Nat
  totalRequests : Nat
  totalTokensDistributed : Nat
  paused : Bool
  poolBalance : Nat

/-- The daily-usage value that `requestTokens` (after its lazy rollover,
lines 85-89) and `canUserRequest` (lines 169-171) effectively read for a user
at a given time: `0` if the stored day bucket is older than the current day,
otherwise the stored `dailyRequested`. -/
def dailyEff (s : FaucetState) (user currentTime : Nat) : Nat :=
  if s.lastRequestDay user < currentTime / 86400 then 0 else s.dailyRequested user

/-- `requestTokens` (XFIFaucet.sol lines 74-114), with `currentTime` standing
for `block.timestamp` and `transferOk` for the result of the external
`xfiToken.transfer` call.  `1 days = 86400`.  The `whenNotPaused` modifier is
the first check.  Each checked-arithmetic step that can overflow or underflow
a `uint256` appears as an explicit `ArithmeticRevert` branch, in the source's
evaluation order. -/
def requestTokens (s : FaucetState) (user currentTime : Nat) (transferOk : Bool) :
    Except FaucetError (FaucetState × List Event) :=
  if s.paused then .error .Paused
  else if currentTime < s.nextRequestTime user then
    -- payload `nextRequestTime[user] - currentTime` cannot underflow here
    .error (.CooldownActive (s.nextRequestTime user - currentTime))
  else
    -- reset daily counter if new day (storage writes, lines 86-89)
    let currentDay := currentTime / 86400
    let s1 : FaucetState :=
      if s.lastRequestDay user < currentDay then
        { s with dailyRequested := setMap s.dailyRequested user 0,
                 lastRequestDay := setMap s.lastRequestDay user currentDay }
      else s
    -- `dailyRequested[user] + tokensPerRequest` is a checked uint256 addition
    if UINT_MAX < s1.dailyRequested user + s1.tokensPerRequest then .error .ArithmeticRevert
    else if s1.maxTokensPerDay < s1.dailyRequested user + s1.tokensPerRequest then
      -- payload `maxTokensPerDay - dailyRequested[user]` is a checked subtraction
      if s1.maxTokensPerDay < s1.dailyRequested user then .error .ArithmeticRevert
      else .error (.DailyLimitExceeded (s1.maxTokensPerDay - s1.dailyRequested user))
    else if s1.poolBalance < s1.tokensPerRequest then .error .InsufficientFaucetBalance
    -- state updates (lines 102-107): each `+` is checked
    else if UINT_MAX < currentTime + s1.cooldownTime then .error .ArithmeticRevert
    else if UINT_MAX < s1.totalRequests + 1 then .error .ArithmeticRevert
    else if UINT_MAX < s1.totalTokensDistributed + s1.tokensPerRequest then .error .ArithmeticRevert
    else if transferOk then
      .ok ({ s1 with
              nextRequestTime := setMap s1.nextRequestTime user (currentTime + s1.cooldownTime),
              dailyRequested := setMap s1.dailyRequested user
                (s1.dailyRequested user + s1.tokensPerRequest),
              totalRequests := s1.totalRequests + 1,
              totalTokensDistributed := s1.totalTokensDistributed + s1.tokensPerRequest,
              poolBalance := s1.poolBalance - s1.tokensPerRequest },
            [.TokensRequested user s1.tokensPerRequest])
    else .error .TransferFailed

/-- The post-state of a successful `requestTokens s user currentTime`, spelled
with the same rollover-then-write storage sequence as the source. -/
def successState (s : FaucetState) (user currentTime : Nat) : FaucetState :=
  let currentDay := currentTime / 86400
  let s1 : FaucetState :=
    if s.lastRequestDay user < currentDay then
      { s with dailyRequested := setMap s.dailyRequested user 0,
               lastRequestDay := setMap s.lastRequestDay user currentDay }
    else s
  { s1 with
      nextRequestTime := setMap s1.nextRequestTime user (currentTime + s1.cooldownTime),
      dailyRequested := setMap s1.dailyRequested user
        (s1.dailyRequested user + s1.tokensPerRequest),
      totalRequests := s1.totalRequests + 1,
      totalTokensDistributed := s1.totalTokensDistributed + s1.tokensPerRequest,
      poolBalance := s1.poolBalance - s1.tokensPerRequest }

/-- `canUserRequest` (XFIFaucet.sol lines 163-188).  The view itself can
revert with a `Panic(0x11)` when `dailyUsed + tokensPerRequest` overflows,
hence the `Except`. -/
def canUserRequest (s : FaucetState) (user currentTime : Nat) :
    Except FaucetError (Bool × String) :=
  if currentTime < s.nextRequestTime user then .ok (false, "Cooldown active")
  else
    let dailyUsed := dailyEff s user currentTime
    if UINT_MAX < dailyUsed + s.tokensPerRequest then .error .ArithmeticRevert
    else if s.maxTokensPerDay < dailyUsed + s.tokensPerRequest then
      .ok (false, "Daily limit exceeded")
    else if s.poolBalance < s.tokensPerRequest then
      .ok (false, "Insufficient faucet balance")
    else if s.paused then .ok (false, "Faucet is paused")
    else .ok (true, "")

/-- `getFaucetStats` (lines 197-209): balance, requests, distributed, perRequest. -/
def getFaucetStats (s : FaucetState) : Nat × Nat × Nat × Nat :=
  (s.poolBalance, s.totalRequests, s.totalTokensDistributed, s.tokensPerRequest)

/-- `updateFaucetConfig` (lines 219-232). -/
def updateFaucetConfig (s : FaucetState)
    (_tokensPerRequest _cooldownTime _maxTokensPerDay : Nat) :
    Except FaucetError (FaucetState × List Event) :=
  if _tokensPerRequest = 0 then .error .InvalidAmount
  else
    .ok ({ s with tokensPerRequest := _tokensPerRequest,
                  cooldownTime := _cooldownTime,
                  maxTokensPerDay := _maxTokensPerDay,
                  minTokenBalance := _tokensPerRequest },
         [.FaucetConfigUpdated _tokensPerRequest _cooldownTime _maxTokensPerDay])

/-- `withdrawTokens` (lines 238-251); `transferOk` is the external transfer's
result. -/
def withdrawTokens (s : FaucetState) (amount : Nat) (transferOk : Bool) :
    Except FaucetError (FaucetState × List Event) :=
  let faucetBalance := s.poolBalance
  let amt := if amount = 0 then faucetBalance else amount
  if faucetBalance < amt then .error .InsufficientFaucetBalance
  else if transferOk then
    .ok ({ s with poolBalance := faucetBalance - amt }, [.TokensWithdrawn s.owner amt])
  else .error .TransferFailed

/-- `depositTokens` (lines 258-265); `transferOk` is the external
`transferFrom`'s result.  The pool lives in the external token ledger, whose
internal arithmetic is outside this contract, so it is left unbounded. -/
def depositTokens (s : FaucetState) (caller amount : Nat) (transferOk : Bool) :
    Except FaucetError (FaucetState × List Event) :=
  if amount = 0 then .error .InvalidAmount
  else if transferOk then
    .ok ({ s with poolBalance := s.poolBalance + amount }, [.TokensDeposited caller amount])
  else .error .TransferFailed

/-- `emergencyWithdraw` (lines 270-277): a no-op when the balance is zero. -/
def emergencyWithdraw (s : FaucetState) (transferOk : Bool) :
    Except FaucetError (FaucetState × List Event) :=
  if 0 < s.poolBalance then
    if transferOk then
      .ok ({ s with poolBalance := 0 }, [.TokensWithdrawn s.owner s.poolBalance])
    else .error .TransferFailed
  else .ok (s, [])

/-- `pause` (lines 282-284): OpenZeppelin `_pause` carries `whenNotPaused`. -/
def pause (s : FaucetState) : Except FaucetError (FaucetState × List Event) :=
  if s.paused then .error .Paused else .ok ({ s with paused := true }, [])

/-- `unpause` (lines 289-291): OpenZeppelin `_unpause` carries `whenPaused`. -/
def unpause (s : FaucetState) : Except FaucetError (FaucetState × List Event) :=
  if s.paused then .ok ({ s with paused := false }, []) else .error .NotPaused

/-- `resetUserCooldown` (lines 297-299). -/
def resetUserCooldown (s : FaucetState) (user : Nat) :
    Except FaucetError (FaucetState × List Event) :=
  .ok ({ s with nextRequestTime := setMap s.nextRequestTime user 0 }, [])

/-- The storage produced by a successful deployment (constructor body,
lines 59-64): config as given, `minTokenBalance = _tokensPerRequest`, all
mappings and statistics zero, not paused, empty pool. -/
def initState (deployer _tokensPerRequest _cooldownTime _maxTokensPerDay : Nat) :
    FaucetState :=
  { owner := deployer
    tokensPerRequest := _tokensPerRequest
    cooldownTime := _cooldownTime
    maxTokensPerDay := _maxTokensPerDay
    minTokenBalance := _tokensPerRequest
    nextRequestTime := fun _ => 0
    dailyRequested := fun _ => 0
    lastRequestDay := fun _ => 0
    totalRequests := 0
    totalTokensDistributed := 0
    paused := false
    poolBalance := 0 }

/-- The constructor (lines 52-65): rejects only a zero token address. -/
def mkFaucet (deployer _xfiToken _tokensPerRequest _cooldownTime _maxTokensPerDay : Nat) :
    Except FaucetError FaucetState :=
  if _xfiToken = 0 then .error .InvalidAddress
  else .ok (initState deployer _tokensPerRequest _cooldownTime _maxTokensPerDay)

/-- One invocation of a state-mutating entry point, with its external inputs
(`block.timestamp` and the outcome of any external token call). -/
inductive Op where
  | requestOp (user time : Nat) (transferOk : Bool)
  | configOp (tokensPerRequest cooldownTime maxTokensPerDay : Nat)
  | withdrawOp (amount : Nat) (transferOk : Bool)
  | depositOp (caller amount : Nat) (transferOk : Bool)
  | emergencyOp (transferOk : Bool)
  | pauseOp
  | unpauseOp
  | resetOp (user : Nat)

/-- Transaction semantics of one invocation: the new state on success, the
unchanged pre-state on revert (EVM rollback). -/
def applyOp (s : FaucetState) (op : Op) : FaucetState :=
  match op with
  | .requestOp u t tk =>
      match requestTokens s u t tk with
      | .ok (s2, _) => s2
      | .error _ => s
  | .configOp a b c =>
      match updateFaucetConfig s a b c with
      | .ok (s2, _) => s2
      | .error _ => s
  | .withdrawOp a tk =>
      match withdrawTokens s a tk with
      | .ok (s2, _) => s2
      | .error _ => s
  | .depositOp c a tk =>
      match depositTokens s c a tk with
      | .ok (s2, _) => s2
      | .error _ => s
  | .emergencyOp tk =>
      match emergencyWithdraw s tk with
      | .ok (s2, _) => s2
      | .error _ => s
  | .pauseOp =>
      match pause s with
      | .ok (s2, _) => s2
      | .error _ => s
  | .unpauseOp =>
      match unpause s with
      | .ok (s2, _) => s2
      | .error _ => s
  | .resetOp u =>
      match resetUserCooldown s u with
      | .ok (s2, _) => s2
      | .error _ => s

/-- Run a sequence of invocations. -/
def execTrace (s : FaucetState) : List Op → FaucetState
  | [] => s
  | op :: ops => execTrace (applyOp s op) ops

/-- A state is reachable when some deployment followed by some sequence of
invocations produces it. -/
def Reachable (s : FaucetState) : Prop :=
  ∃ deployer tpr cd mx ops, execTrace (initState deployer tpr cd mx) ops = s

/-- The amounts disbursed by the successful `requestTokens` invocations of a
trace, in order. -/
def claimLog (s : FaucetState) : List Op → List Nat
  | [] => []
  | op :: ops =>
    match op with
    | .requestOp u t tk =>
        match requestTokens s u t tk with
        | .ok _ => s.tokensPerRequest :: claimLog (applyOp s op) ops
        | .error _ => claimLog (applyOp s op) ops
    | _ => claimLog (applyOp s op) ops

/-- `true` unless the invocation is an `updateFaucetConfig` that lowers
`maxTokensPerDay` below its current value. -/
def monoHead (s : FaucetState) : Op → Bool
  | .configOp _ _ mx => decide (s.maxTokensPerDay ≤ mx)
  | _ => true

/-- `true` when no `updateFaucetConfig` of the trace lowers `maxTokensPerDay`
below its current value. -/
def monoCfg (s : FaucetState) : List Op → Bool
  | [] => true
  | op :: ops => monoHead s op && monoCfg (applyOp s op) ops

/-- Whether a call committed (did not revert). -/
def isOkE {α : Type} : Except FaucetError α → Bool
  | .ok _ => true
  | .error _ => false

/-- Whether a call reverted with `DailyLimitExceeded`. -/
def isDailyLimitErr {α : Type} : Except FaucetError α → Bool
  | .error (.DailyLimitExceeded _) => true
  | _ => false

theorem setMap_same (m : Nat → Nat) (k v : Nat) : setMap m k v k = v := by
  simp [setMap]

theorem setMap_other (m : Nat → Nat) (k v q : Nat) (h : q ≠ k) :
    setMap m k v q = m q := by
  simp [setMap, h]

/-- Rollover-resolved form of `requestTokens`: the same decision cascade,
expressed through `dailyEff` instead of the intermediate storage writes. -/
def requestTokensAlt (s : FaucetState) (u t : Nat) (tk : Bool) :
    Except FaucetError (FaucetState × List Event) :=
  if s.paused then .error .Paused
  else if t < s.nextRequestTime u then .error (.CooldownActive (s.nextRequestTime u - t))
  else if UINT_MAX < dailyEff s u t + s.tokensPerRequest then .error .ArithmeticRevert
  else if s.maxTokensPerDay < dailyEff s u t + s.tokensPerRequest then
    if s.maxTokensPerDay < dailyEff s u t then .error .ArithmeticRevert
    else .error (.DailyLimitExceeded (s.maxTokensPerDay - dailyEff s u t))
  else if s.poolBalance < s.tokensPerRequest then .error .InsufficientFaucetBalance
  else if UINT_MAX < t + s.cooldownTime then .error .ArithmeticRevert
  else if UINT_MAX < s.totalRequests + 1 then .error .ArithmeticRevert
  else if UINT_MAX < s.totalTokensDistributed + s.tokensPerRequest then .error .ArithmeticRevert
  else if tk then .ok (successState s u t, [.TokensRequested u s.tokensPerRequest])
  else .error .TransferFailed

theorem requestTokens_eq_alt (s : FaucetState) (u t : Nat) (tk : Bool) :
    requestTokens s u t tk = requestTokensAlt s u t tk := by
  by_cases hroll : s.lastRequestDay u < t / 86400 <;>
    simp [requestTokens, requestTokensAlt, successState, dailyEff, setMap, hroll]

theorem requestTokens_ok_iff (s : FaucetState) (u t : Nat) (tk : Bool)
    (p : FaucetState × List Event) :
    requestTokens s u t tk = .ok p ↔
      (s.paused = false ∧ s.nextRequestTime u ≤ t ∧
       dailyEff s u t + s.tokensPerRequest ≤ UINT_MAX ∧
       dailyEff s u t + s.tokensPerRequest ≤ s.maxTokensPerDay ∧
       s.tokensPerRequest ≤ s.poolBalance ∧
       t + s.cooldownTime ≤ UINT_MAX ∧
       s.totalRequests + 1 ≤ UINT_MAX ∧
       s.totalTokensDistributed + s.tokensPerRequest ≤ UINT_MAX ∧
       tk = true ∧
       p = (successState s u t, [Event.TokensRequested u s.tokensPerRequest])) := by
  rw [requestTokens_eq_alt]
  constructor
  · intro h
    unfold requestTokensAlt at h
    split_ifs at h
    simp_all
  · rintro ⟨hp, hc, hov, hd, hb, hct, htr, httd, htk, hpeq⟩
    subst hpeq
    subst htk
    simp [requestTokensAlt, hp, Nat.not_lt.mpr hc, Nat.not_lt.mpr hov, Nat.not_lt.mpr hd,
      Nat.not_lt.mpr hb, Nat.not_lt.mpr hct, Nat.not_lt.mpr htr, Nat.not_lt.mpr httd]

theorem requestTokens_paused (s : FaucetState) (u t : Nat) (tk : Bool)
    (hp : s.paused = true) : requestTokens s u t tk = .error .Paused := by
  rw [requestTokens_eq_alt]; simp [requestTokensAlt, hp]

theorem requestTokens_cooldown (s : FaucetState) (u t : Nat) (tk : Bool)
    (hp : s.paused = false) (hc : t < s.nextRequestTime u) :
    requestTokens s u t tk = .error (.CooldownActive (s.nextRequestTime u - t)) := by
  rw [requestTokens_eq_alt]; simp [requestTokensAlt, hp, hc]

theorem requestTokens_daily_overflow (s : FaucetState) (u t : Nat) (tk : Bool)
    (hp : s.paused = false) (hc : s.nextRequestTime u ≤ t)
    (hov : UINT_MAX < dailyEff s u t + s.tokensPerRequest) :
    requestTokens s u t tk = .error .ArithmeticRevert := by
  rw [requestTokens_eq_alt]; simp [requestTokensAlt, hp, Nat.not_lt.mpr hc, hov]

theorem requestTokens_daily_underflow (s : FaucetState) (u t : Nat) (tk : Bool)
    (hp : s.paused = false) (hc : s.nextRequestTime u ≤ t)
    (hov : dailyEff s u t + s.tokensPerRequest ≤ UINT_MAX)
    (hu : s.maxTokensPerDay < dailyEff s u t) :
    requestTokens s u t tk = .error .ArithmeticRevert := by
  rw [requestTokens_eq_alt]
  simp [requestTokensAlt, hp, Nat.not_lt.mpr hc, Nat.not_lt.mpr hov, hu]
  omega

theorem requestTokens_daily_limit (s : FaucetState) (u t : Nat) (tk : Bool)
    (hp : s.paused = false) (hc : s.nextRequestTime u ≤ t)
    (hov : dailyEff s u t + s.tokensPerRequest ≤ UINT_MAX)
    (hd : s.maxTokensPerDay < dailyEff s u t + s.tokensPerRequest)
    (hu : dailyEff s u t ≤ s.maxTokensPerDay) :
    requestTokens s u t tk
      = .error (.DailyLimitExceeded (s.maxTokensPerDay - dailyEff s u t)) := by
  rw [requestTokens_eq_alt]
  simp [requestTokensAlt, hp, Nat.not_lt.mpr hc, Nat.not_lt.mpr hov, hd, Nat.not_lt.mpr hu]

theorem requestTokens_balance (s : FaucetState) (u t : Nat) (tk : Bool)
    (hp : s.paused = false) (hc : s.nextRequestTime u ≤ t)
    (hov : dailyEff s u t + s.tokensPerRequest ≤ UINT_MAX)
    (hd : dailyEff s u t + s.tokensPerRequest ≤ s.maxTokensPerDay)
    (hb : s.poolBalance < s.tokensPerRequest) :
    requestTokens s u t tk = .error .InsufficientFaucetBalance := by
  rw [requestTokens_eq_alt]
  simp [requestTokensAlt, hp, Nat.not_lt.mpr hc, Nat.not_lt.mpr hov, Nat.not_lt.mpr hd, hb]

theorem requestTokens_transfer_failed (s : FaucetState) (u t : Nat)
    (hp : s.paused = false) (hc : s.nextRequestTime u ≤ t)
    (hov : dailyEff s u t + s.tokensPerRequest ≤ UINT_MAX)
    (hd : dailyEff s u t + s.tokensPerRequest ≤ s.maxTokensPerDay)
    (hb : s.tokensPerRequest ≤ s.poolBalance)
    (hct : t + s.cooldownTime ≤ UINT_MAX)
    (htr : s.totalRequests + 1 ≤ UINT_MAX)
    (httd : s.totalTokensDistributed + s.tokensPerRequest ≤ UINT_MAX) :
    requestTokens s u t false = .error .TransferFailed := by
  rw [requestTokens_eq_alt]
  simp [requestTokensAlt, hp, Nat.not_lt.mpr hc, Nat.not_lt.mpr hov, Nat.not_lt.mpr hd,
    Nat.not_lt.mpr hb, Nat.not_lt.mpr hct, Nat.not_lt.mpr htr, Nat.not_lt.mpr httd]

theorem applyOp_request_error (s : FaucetState) (u t : Nat) (tk : Bool) (e : FaucetError)
    (h : requestTokens s u t tk = .error e) : applyOp s (.requestOp u t tk) = s := by
  simp [applyOp, h]

theorem applyOp_request_ok (s s2 : FaucetState) (u t : Nat) (tk : Bool) (ev : List Event)
    (h : requestTokens s u t tk = .ok (s2, ev)) : applyOp s (.requestOp u t tk) = s2 := by
  simp [applyOp, h]

theorem successState_totalRequests (s : FaucetState) (u t : Nat) :
    (successState s u t).totalRequests = s.totalRequests + 1 := by
  by_cases hroll : s.lastRequestDay u < t / 86400 <;> simp [successState, hroll]

theorem successState_totalDistributed (s : FaucetState) (u t : Nat) :
    (successState s u t).totalTokensDistributed
      = s.totalTokensDistributed + s.tokensPerRequest := by
  by_cases hroll : s.lastRequestDay u < t / 86400 <;> simp [successState, hroll]

theorem successState_maxTokensPerDay (s : FaucetState) (u t : Nat) :
    (successState s u t).maxTokensPerDay = s.maxTokensPerDay := by
  by_cases hroll : s.lastRequestDay u < t / 86400 <;> simp [successState, hroll]

theorem successState_tokensPerRequest (s : FaucetState) (u t : Nat) :
    (successState s u t).tokensPerRequest = s.tokensPerRequest := by
  by_cases hroll : s.lastRequestDay u < t / 86400 <;> simp [successState, hroll]

theorem successState_poolBalance (s : FaucetState) (u t : Nat) :
    (successState s u t).poolBalance = s.poolBalance - s.tokensPerRequest := by
  by_cases hroll : s.lastRequestDay u < t / 86400 <;> simp [successState, hroll]

theorem successState_nextRequestTime_self (s : FaucetState) (u t : Nat) :
    (successState s u t).nextRequestTime u = t + s.cooldownTime := by
  by_cases hroll : s.lastRequestDay u < t / 86400 <;> simp [successState, hroll, setMap]

theorem successState_dailyRequested_self (s : FaucetState) (u t : Nat) :
    (successState s u t).dailyRequested u = dailyEff s u t + s.tokensPerRequest := by
  by_cases hroll : s.lastRequestDay u < t / 86400 <;>
    simp [successState, dailyEff, hroll, setMap]

theorem successState_dailyRequested_other (s : FaucetState) (u t a : Nat) (ha : a ≠ u) :
    (successState s u t).dailyRequested a = s.dailyRequested a := by
  by_cases hroll : s.lastRequestDay u < t / 86400 <;>
    simp [successState, hroll, setMap, ha]

theorem applyOp_stats_frame (s : FaucetState) (op : Op)
    (h : ∀ u t tk, op ≠ Op.requestOp u t tk) :
    (applyOp s op).totalRequests = s.totalRequests ∧
    (applyOp s op).totalTokensDistributed = s.totalTokensDistributed := by
  cases op with
  | requestOp u t tk => exact absurd rfl (h u t tk)
  | configOp a b c =>
      simp only [applyOp, updateFaucetConfig]
      split_ifs <;> simp
  | withdrawOp a tk =>
      simp only [applyOp, withdrawTokens]
      split_ifs <;> simp
  | depositOp c a tk =>
      simp only [applyOp, depositTokens]
      split_ifs <;> simp
  | emergencyOp tk =>
      simp only [applyOp, emergencyWithdraw]
      split_ifs <;> simp
  | pauseOp =>
      simp only [applyOp, pause]
      split_ifs <;> simp
  | unpauseOp =>
      simp only [applyOp, unpause]
      split_ifs <;> simp
  | resetOp u => simp [applyOp, resetUserCooldown]

theorem applyOp_daily_frame (s : FaucetState) (op : Op)
    (h : ∀ u t tk, op ≠ Op.requestOp u t tk)
    (h2 : ∀ a b c, op ≠ Op.configOp a b c) :
    (applyOp s op).dailyRequested = s.dailyRequested ∧
    (applyOp s op).maxTokensPerDay = s.maxTokensPerDay := by
  cases op with
  | requestOp u t tk => exact absurd rfl (h u t tk)
  | configOp a b c => exact absurd rfl (h2 a b c)
  | withdrawOp a tk =>
      simp only [applyOp, withdrawTokens]
      split_ifs <;> simp
  | depositOp c a tk =>
      simp only [applyOp, depositTokens]
      split_ifs <;> simp
  | emergencyOp tk =>
      simp only [applyOp, emergencyWithdraw]
      split_ifs <;> simp
  | pauseOp =>
      simp only [applyOp, pause]
      split_ifs <;> simp
  | unpauseOp =>
      simp only [applyOp, unpause]
      split_ifs <;> simp
  | resetOp u => simp [applyOp, resetUserCooldown]

/-- Per-address daily counter never above the current daily cap. -/
def DailyInv (s : FaucetState) : Prop :=
  ∀ a, s.dailyRequested a ≤ s.maxTokensPerDay

theorem applyOp_dailyInv (s : FaucetState) (op : Op) (hinv : DailyInv s)
    (hm : monoHead s op = true) : DailyInv (applyOp s op) := by
  cases op with
  | requestOp u t tk =>
      cases hreq : requestTokens s u t tk with
      | error e =>
          rw [applyOp_request_error s u t tk e hreq]
          exact hinv
      | ok p =>
          rcases p with ⟨s2, ev⟩
          obtain ⟨-, -, -, hd, -, -, -, -, -, hpe⟩ :=
            (requestTokens_ok_iff s u t tk (s2, ev)).mp hreq
          have hs2 : s2 = successState s u t := (Prod.ext_iff.mp hpe).1
          rw [applyOp_request_ok s s2 u t tk ev hreq, hs2]
          intro a
          rw [successState_maxTokensPerDay]
          by_cases ha : a = u
          · rw [ha, successState_dailyRequested_self]
            exact hd
          · rw [successState_dailyRequested_other s u t a ha]
            exact hinv a
  | configOp a b c =>
      have hmx : s.maxTokensPerDay ≤ c := by
        simpa [monoHead] using hm
      intro x
      by_cases hz : a = 0 <;> simp [applyOp, updateFaucetConfig, hz]
      · exact hinv x
      · exact le_trans (hinv x) hmx
  | withdrawOp a tk =>
      obtain ⟨h1, h2⟩ := applyOp_daily_frame s (.withdrawOp a tk)
        (by intro u t tk h; cases h) (by intro a b c h; cases h)
      intro x
      rw [h1, h2]
      exact hinv x
  | depositOp c a tk =>
      obtain ⟨h1, h2⟩ := applyOp_daily_frame s (.depositOp c a tk)
        (by intro u t tk h; cases h) (by intro a b c h; cases h)
      intro x
      rw [h1, h2]
      exact hinv x
  | emergencyOp tk =>
      obtain ⟨h1, h2⟩ := applyOp_daily_frame s (.emergencyOp tk)
        (by intro u t tk h; cases h) (by intro a b c h; cases h)
      intro x
      rw [h1, h2]
      exact hinv x
  | pauseOp =>
      obtain ⟨h1, h2⟩ := applyOp_daily_frame s .pauseOp
        (by intro u t tk h; cases h) (by intro a b c h; cases h)
      intro x
      rw [h1, h2]
      exact hinv x
  | unpauseOp =>
      obtain ⟨h1, h2⟩ := applyOp_daily_frame s .unpauseOp
        (by intro u t tk h; cases h) (by intro a b c h; cases h)
      intro x
      rw [h1, h2]
      exact hinv x
  | resetOp u =>
      obtain ⟨h1, h2⟩ := applyOp_daily_frame s (.resetOp u)
        (by intro u t tk h; cases h) (by intro a b c h; cases h)
      intro x
      rw [h1, h2]
      exact hinv x

theorem monoCfg_dailyInv (ops : List Op) : ∀ s : FaucetState,
    DailyInv s → monoCfg s ops = true → DailyInv (execTrace s ops) := by
  induction ops with
  | nil => intro s h _; exact h
  | cons op ops ih =>
      intro s h hm
      have hm2 : monoHead s op = true ∧ monoCfg (applyOp s op) ops = true := by
        simpa [monoCfg] using hm
      exact ih (applyOp s op) (applyOp_dailyInv s op h hm2.1) hm2.2

theorem applyOp_stats_mono (s : FaucetState) (op : Op) :
    s.totalRequests ≤ (applyOp s op).totalRequests ∧
    s.totalTokensDistributed ≤ (applyOp s op).totalTokensDistributed := by
  cases op with
  | requestOp u t tk =>
      cases hreq : requestTokens s u t tk with
      | error e => rw [applyOp_request_error s u t tk e hreq]; exact ⟨le_refl _, le_refl _⟩
      | ok p =>
          rcases p with ⟨s2, ev⟩
          obtain ⟨-, -, -, -, -, -, -, -, -, hpe⟩ :=
            (requestTokens_ok_iff s u t tk (s2, ev)).mp hreq
          have hs2 : s2 = successState s u t := (Prod.ext_iff.mp hpe).1
          rw [applyOp_request_ok s s2 u t tk ev hreq, hs2,
            successState_totalRequests, successState_totalDistributed]
          exact ⟨Nat.le_succ _, Nat.le_add_right _ _⟩
  | configOp a b c =>
      obtain ⟨h1, h2⟩ := applyOp_stats_frame s (.configOp a b c) (by intro u t tk h; cases h)
      rw [h1, h2]
      exact ⟨le_refl _, le_refl _⟩
  | withdrawOp a tk =>
      obtain ⟨h1, h2⟩ := applyOp_stats_frame s (.withdrawOp a tk) (by intro u t tk h; cases h)
      rw [h1, h2]
      exact ⟨le_refl _, le_refl _⟩
  | depositOp c a tk =>
      obtain ⟨h1, h2⟩ := applyOp_stats_frame s (.depositOp c a tk) (by intro u t tk h; cases h)
      rw [h1, h2]
      exact ⟨le_refl _, le_refl _⟩
  | emergencyOp tk =>
      obtain ⟨h1, h2⟩ := applyOp_stats_frame s (.emergencyOp tk) (by intro u t tk h; cases h)
      rw [h1, h2]
      exact ⟨le_refl _, le_refl _⟩
  | pauseOp =>
      obtain ⟨h1, h2⟩ := applyOp_stats_frame s .pauseOp (by intro u t tk h; cases h)
      rw [h1, h2]
      exact ⟨le_refl _, le_refl _⟩
  | unpauseOp =>
      obtain ⟨h1, h2⟩ := applyOp_stats_frame s .unpauseOp (by intro u t tk h; cases h)
      rw [h1, h2]
      exact ⟨le_refl _, le_refl _⟩
  | resetOp u =>
      obtain ⟨h1, h2⟩ := applyOp_stats_frame s (.resetOp u) (by intro u t tk h; cases h)
      rw [h1, h2]
      exact ⟨le_refl _, le_refl _⟩

theorem execTrace_stats (ops : List Op) : ∀ s : FaucetState,
    (execTrace s ops).totalTokensDistributed
      = s.totalTokensDistributed + (claimLog s ops).sum ∧
    (execTrace s ops).totalRequests = s.totalRequests + (claimLog s ops).length := by
  induction ops with
  | nil => intro s; simp [execTrace, claimLog]
  | cons op ops ih =>
      intro s
      cases op with
      | requestOp u t tk =>
          cases hreq : requestTokens s u t tk with
          | error e =>
              have happ := applyOp_request_error s u t tk e hreq
              obtain ⟨i1, i2⟩ := ih (applyOp s (.requestOp u t tk))
              have hst1 : (applyOp s (.requestOp u t tk)).totalTokensDistributed
                  = s.totalTokensDistributed := by rw [happ]
              have hst2 : (applyOp s (.requestOp u t tk)).totalRequests
                  = s.totalRequests := by rw [happ]
              constructor
              · show (execTrace (applyOp s (.requestOp u t tk)) ops).totalTokensDistributed = _
                rw [i1, hst1]
                simp [claimLog, hreq]
              · show (execTrace (applyOp s (.requestOp u t tk)) ops).totalRequests = _
                rw [i2, hst2]
                simp [claimLog, hreq]
          | ok p =>
              rcases p with ⟨s2, ev⟩
              obtain ⟨-, -, -, -, -, -, -, -, -, hpe⟩ :=
                (requestTokens_ok_iff s u t tk (s2, ev)).mp hreq
              have hs2 : s2 = successState s u t := (Prod.ext_iff.mp hpe).1
              have happ := applyOp_request_ok s s2 u t tk ev hreq
              obtain ⟨i1, i2⟩ := ih (applyOp s (.requestOp u t tk))
              have hst1 : (applyOp s (.requestOp u t tk)).totalTokensDistributed
                  = s.totalTokensDistributed + s.tokensPerRequest := by
                rw [happ, hs2, successState_totalDistributed]
              have hst2 : (applyOp s (.requestOp u t tk)).totalRequests
                  = s.totalRequests + 1 := by
                rw [happ, hs2, successState_totalRequests]
              constructor
              · show (execTrace (applyOp s (.requestOp u t tk)) ops).totalTokensDistributed = _
                rw [i1, hst1]
                simp [claimLog, hreq]
                omega
              · show (execTrace (applyOp s (.requestOp u t tk)) ops).totalRequests = _
                rw [i2, hst2]
                simp [claimLog, hreq]
                omega
      | configOp a b c =>
          obtain ⟨h1, h2⟩ := applyOp_stats_frame s (.configOp a b c) (by intro u t tk h; cases h)
          obtain ⟨i1, i2⟩ := ih (applyOp s (.configOp a b c))
          constructor
          · show (execTrace (applyOp s (.configOp a b c)) ops).totalTokensDistributed = _
            rw [i1, h2]
            simp [claimLog]
          · show (execTrace (applyOp s (.configOp a b c)) ops).totalRequests = _
            rw [i2, h1]
            simp [claimLog]
      | withdrawOp a tk =>
          obtain ⟨h1, h2⟩ := applyOp_stats_frame s (.withdrawOp a tk) (by intro u t tk h; cases h)
          obtain ⟨i1, i2⟩ := ih (applyOp s (.withdrawOp a tk))
          constructor
          · show (execTrace (applyOp s (.withdrawOp a tk)) ops).totalTokensDistributed = _
            rw [i1, h2]
            simp [claimLog]
          · show (execTrace (applyOp s (.withdrawOp a tk)) ops).totalRequests = _
            rw [i2, h1]
            simp [claimLog]
      | depositOp c a tk =>
          obtain ⟨h1, h2⟩ := applyOp_stats_frame s (.depositOp c a tk) (by intro u t tk h; cases h)
          obtain ⟨i1, i2⟩ := ih (applyOp s (.depositOp c a tk))
          constructor
          · show (execTrace (applyOp s (.depositOp c a tk)) ops).totalTokensDistributed = _
            rw [i1, h2]
            simp [claimLog]
          · show (execTrace (applyOp s (.depositOp c a tk)) ops).totalRequests = _
            rw [i2, h1]
            simp [claimLog]
      | emergencyOp tk =>
          obtain ⟨h1, h2⟩ := applyOp_stats_frame s (.emergencyOp tk) (by intro u t tk h; cases h)
          obtain ⟨i1, i2⟩ := ih (applyOp s (.emergencyOp tk))
          constructor
          · show (execTrace (applyOp s (.emergencyOp tk)) ops).totalTokensDistributed = _
            rw [i1, h2]
            simp [claimLog]
          · show (execTrace (applyOp s (.emergencyOp tk)) ops).totalRequests = _
            rw [i2, h1]
            simp [claimLog]
      | pauseOp =>
          obtain ⟨h1, h2⟩ := applyOp_stats_frame s .pauseOp (by intro u t tk h; cases h)
          obtain ⟨i1, i2⟩ := ih (applyOp s .pauseOp)
          constructor
          · show (execTrace (applyOp s .pauseOp) ops).totalTokensDistributed = _
            rw [i1, h2]
            simp [claimLog]
          · show (execTrace (applyOp s .pauseOp) ops).totalRequests = _
            rw [i2, h1]
            simp [claimLog]
      | unpauseOp =>
          obtain ⟨h1, h2⟩ := applyOp_stats_frame s .unpauseOp (by intro u t tk h; cases h)
          obtain ⟨i1, i2⟩ := ih (applyOp s .unpauseOp)
          constructor
          · show (execTrace (applyOp s .unpauseOp) ops).totalTokensDistributed = _
            rw [i1, h2]
            simp [claimLog]
          · show (execTrace (applyOp s .unpauseOp) ops).totalRequests = _
            rw [i2, h1]
            simp [claimLog]
      | resetOp u =>
          obtain ⟨h1, h2⟩ := applyOp_stats_frame s (.resetOp u) (by intro u t tk h; cases h)
          obtain ⟨i1, i2⟩ := ih (applyOp s (.resetOp u))
          constructor
          · show (execTrace (applyOp s (.resetOp u)) ops).totalTokensDistributed = _
            rw [i1, h2]
            simp [claimLog]
          · show (execTrace (applyOp s (.resetOp u)) ops).totalRequests = _
            rw [i2, h1]
            simp [claimLog]

theorem canUserRequest_true_iff (s : FaucetState) (u t : Nat) :
    canUserRequest s u t = .ok (true, "") ↔
      (s.nextRequestTime u ≤ t ∧
       dailyEff s u t + s.tokensPerRequest ≤ UINT_MAX ∧
       dailyEff s u t + s.tokensPerRequest ≤ s.maxTokensPerDay ∧
       s.tokensPerRequest ≤ s.poolBalance ∧
       s.paused = false) := by
  constructor
  · intro h
    simp only [canUserRequest] at h
    split_ifs at h with h1 h2 h3 h4 h5
    · exact absurd h (by simp)
    · exact absurd h (by simp)
    · exact absurd h (by simp)
    · exact absurd h (by simp)
    · refine ⟨Nat.not_lt.mp h1, Nat.not_lt.mp h2, Nat.not_lt.mp h3, Nat.not_lt.mp h4, ?_⟩
      simpa using h5
  · rintro ⟨hc, hov, hd, hb, hp⟩
    simp only [canUserRequest]
    simp [Nat.not_lt.mpr hc, Nat.not_lt.mpr hov, Nat.not_lt.mpr hd, Nat.not_lt.mpr hb, hp]

/-! ## Concrete reachable states used by the claims -/

/-- Deploy with config `{tokensPerRequest 10, cooldownTime 0, maxTokensPerDay 10}`,
fund the pool with 100, let address 1 claim at time 0, then lower the config to
`{5, 0, 5}`: address 1 now has `dailyRequested = 10` above the cap 5 in the
current day bucket. -/
def loweredTrace : List Op :=
  [.depositOp 2 100 true, .requestOp 1 0 true, .configOp 5 0 5]

/-- The state reached by `loweredTrace`. -/
def loweredState : FaucetState := execTrace (initState 7 10 0 10) loweredTrace

/-- Deploy with `cooldownTime = UINT_MAX` (the constructor does not validate it)
and fund the pool with 1 token. -/
def overflowState : FaucetState :=
  execTrace (initState 7 1 UINT_MAX 1) [.depositOp 2 1 true]

/-- Deploy with config `{10, 86400, 10}` and fund the pool with 100. -/
def c5s0 : FaucetState := execTrace (initState 7 10 86400 10) [.depositOp 2 100 true]

/-- `c5s0` after address 1 claims at time 0. -/
def c5s1 : FaucetState := applyOp c5s0 (.requestOp 1 0 true)

/-- `c5s1` after address 1 claims again at time 86400. -/
def c5s2 : FaucetState := applyOp c5s1 (.requestOp 1 86400 true)

/-- Deploy with config `{10, 0, 10}`, fund with 100, then reconfigure to
`{tokensPerRequest 10, cooldownTime 0, maxTokensPerDay 5}`. -/
def c6State : FaucetState :=
  execTrace (initState 7 10 0 10) [.depositOp 2 100 true, .configOp 10 0 5]

/-! ## The claims -/

/-- C1, counterexample to the claim as stated: in the reachable state
`loweredState` the daily-limit precondition fails
(`dailyRequested[1] + tokensPerRequest > maxTokensPerDay`, with the pause,
cooldown and overflow checks all passing), yet `requestTokens` aborts with the
checked-arithmetic revert from the underflowing payload
`maxTokensPerDay - dailyRequested[1]`, not with the typed
`DailyLimitExceeded` error the claim demands. -/
theorem c1_counterexample :
    Reachable loweredState ∧
    loweredState.paused = false ∧
    loweredState.nextRequestTime 1 ≤ 0 ∧
    loweredState.maxTokensPerDay
      < dailyEff loweredState 1 0 + loweredState.tokensPerRequest ∧
    dailyEff loweredState 1 0 + loweredState.tokensPerRequest ≤ UINT_MAX ∧
    requestTokens loweredState 1 0 true = .error .ArithmeticRevert ∧
    isDailyLimitErr (requestTokens loweredState 1 0 true) = false := by
  refine ⟨⟨7, 10, 0, 10, loweredTrace, rfl⟩, rfl, by decide, by decide, by decide, rfl, rfl⟩

/-- C1 (amended): `requestTokens` is all-or-nothing — whenever it aborts, every
piece of ledger state is exactly as before the call — and each precondition
failure aborts with its typed error, except that the daily-limit failure aborts
with an arithmetic revert instead when the (rolled-over) `dailyRequested`
already exceeds `maxTokensPerDay` or when a uint256 addition overflows. -/
theorem c1_request_all_or_nothing (s : FaucetState) (u t : Nat) (tk : Bool) :
    (∀ e, requestTokens s u t tk = .error e → applyOp s (.requestOp u t tk) = s) ∧
    (s.paused = true → requestTokens s u t tk = .error .Paused) ∧
    (s.paused = false → t < s.nextRequestTime u →
      requestTokens s u t tk = .error (.CooldownActive (s.nextRequestTime u - t))) ∧
    (s.paused = false → s.nextRequestTime u ≤ t →
      dailyEff s u t + s.tokensPerRequest ≤ UINT_MAX →
      s.maxTokensPerDay < dailyEff s u t + s.tokensPerRequest →
      dailyEff s u t ≤ s.maxTokensPerDay →
      requestTokens s u t tk
        = .error (.DailyLimitExceeded (s.maxTokensPerDay - dailyEff s u t))) ∧
    (s.paused = false → s.nextRequestTime u ≤ t →
      dailyEff s u t + s.tokensPerRequest ≤ UINT_MAX →
      s.maxTokensPerDay < dailyEff s u t →
      requestTokens s u t tk = .error .ArithmeticRevert) ∧
    (s.paused = false → s.nextRequestTime u ≤ t →
      dailyEff s u t + s.tokensPerRequest ≤ UINT_MAX →
      dailyEff s u t + s.tokensPerRequest ≤ s.maxTokensPerDay →
      s.poolBalance < s.tokensPerRequest →
      requestTokens s u t tk = .error .InsufficientFaucetBalance) ∧
    (s.paused = false → s.nextRequestTime u ≤ t →
      dailyEff s u t + s.tokensPerRequest ≤ UINT_MAX →
      dailyEff s u t + s.tokensPerRequest ≤ s.maxTokensPerDay →
      s.tokensPerRequest ≤ s.poolBalance →
      t + s.cooldownTime ≤ UINT_MAX →
      s.totalRequests + 1 ≤ UINT_MAX →
      s.totalTokensDistributed + s.tokensPerRequest ≤ UINT_MAX →
      requestTokens s u t false = .error .TransferFailed) := by
  refine ⟨fun e h => applyOp_request_error s u t tk e h,
    fun hp => requestTokens_paused s u t tk hp,
    fun hp hc => requestTokens_cooldown s u t tk hp hc,
    fun hp hc hov hd hu => requestTokens_daily_limit s u t tk hp hc hov hd hu,
    fun hp hc hov hu => requestTokens_daily_underflow s u t tk hp hc hov hu,
    fun hp hc hov hd hb => requestTokens_balance s u t tk hp hc hov hd hb,
    fun hp hc hov hd hb hct htr httd =>
      requestTokens_transfer_failed s u t hp hc hov hd hb hct htr httd⟩

/-- Witness for C1: on a freshly deployed, unfunded faucet, the claim by
address 1 at time 0 fails `InsufficientFaucetBalance` and the ledger is
unchanged. -/
theorem c1_witness :
    requestTokens (initState 7 10 86400 10) 1 0 true
      = .error .InsufficientFaucetBalance ∧
    applyOp (initState 7 10 86400 10) (.requestOp 1 0 true) = initState 7 10 86400 10 := by
  obtain ⟨ha, -, -, -, -, hf, -⟩ := c1_request_all_or_nothing (initState 7 10 86400 10) 1 0 true
  have h6 := hf rfl (by decide) (by decide) (by decide) (by decide)
  exact ⟨h6, ha _ h6⟩

/-- C2, counterexample to the claim as stated: `overflowState` is reachable
(the constructor accepts `cooldownTime = 2^256 - 1` unvalidated); at time 1
`canUserRequest` for address 1 returns success `(true, "")`, yet
`requestTokens` by that address at the same state and time cannot succeed — it
reverts on the overflowing `currentTime + cooldownTime` — whatever the token
transfer would do. -/
theorem c2_counterexample :
    Reachable overflowState ∧
    canUserRequest overflowState 1 1 = .ok (true, "") ∧
    isOkE (requestTokens overflowState 1 1 true) = false ∧
    isOkE (requestTokens overflowState 1 1 false) = false := by
  exact ⟨⟨7, 1, UINT_MAX, 1, [.depositOp 2 1 true], rfl⟩, rfl, by decide, by decide⟩

/-- C2 (amended): in every state and at every time where no uint256 addition of
the claim path overflows, `canUserRequest` returns `(true, "")` exactly when
`requestTokens` (with a succeeding transfer) commits; and when it returns
`false`, the reason is the first failing check in the order cooldown, daily
limit (with lazy rollover), pool balance, pause flag. -/
theorem c2_canUserRequest_consistent (s : FaucetState) (u t : Nat)
    (hct : t + s.cooldownTime ≤ UINT_MAX)
    (htr : s.totalRequests + 1 ≤ UINT_MAX)
    (httd : s.totalTokensDistributed + s.tokensPerRequest ≤ UINT_MAX) :
    (canUserRequest s u t = .ok (true, "") ↔ isOkE (requestTokens s u t true) = true) ∧
    (t < s.nextRequestTime u → canUserRequest s u t = .ok (false, "Cooldown active")) ∧
    (s.nextRequestTime u ≤ t →
      dailyEff s u t + s.tokensPerRequest ≤ UINT_MAX →
      s.maxTokensPerDay < dailyEff s u t + s.tokensPerRequest →
      canUserRequest s u t = .ok (false, "Daily limit exceeded")) ∧
    (s.nextRequestTime u ≤ t →
      dailyEff s u t + s.tokensPerRequest ≤ UINT_MAX →
      dailyEff s u t + s.tokensPerRequest ≤ s.maxTokensPerDay →
      s.poolBalance < s.tokensPerRequest →
      canUserRequest s u t = .ok (false, "Insufficient faucet balance")) ∧
    (s.nextRequestTime u ≤ t →
      dailyEff s u t + s.tokensPerRequest ≤ UINT_MAX →
      dailyEff s u t + s.tokensPerRequest ≤ s.maxTokensPerDay →
      s.tokensPerRequest ≤ s.poolBalance → s.paused = true →
      canUserRequest s u t = .ok (false, "Faucet is paused")) := by
  refine ⟨?_, ?_, ?_, ?_, ?_⟩
  · rw [canUserRequest_true_iff]
    constructor
    · rintro ⟨hc, hov, hd, hb, hp⟩
      have hok : requestTokens s u t true
          = .ok (successState s u t, [Event.TokensRequested u s.tokensPerRequest]) :=
        (requestTokens_ok_iff s u t true _).mpr
          ⟨hp, hc, hov, hd, hb, hct, htr, httd, rfl, rfl⟩
      rw [hok]
      rfl
    · intro hok
      cases hres : requestTokens s u t true with
      | error e => rw [hres] at hok; exact absurd hok (by simp [isOkE])
      | ok p =>
          obtain ⟨hp, hc, hov, hd, hb, -⟩ := (requestTokens_ok_iff s u t true p).mp hres
          exact ⟨hc, hov, hd, hb, hp⟩
  · intro h
    simp [canUserRequest, h]
  · intro h1 hov h2
    simp [canUserRequest, Nat.not_lt.mpr h1, Nat.not_lt.mpr hov, h2]
  · intro h1 hov h2 h3
    simp [canUserRequest, Nat.not_lt.mpr h1, Nat.not_lt.mpr hov, Nat.not_lt.mpr h2, h3]
  · intro h1 hov h2 h3 hp
    simp [canUserRequest, Nat.not_lt.mpr h1, Nat.not_lt.mpr hov, Nat.not_lt.mpr h2,
      Nat.not_lt.mpr h3, hp]

/-- Witness for C2: on the funded fresh faucet `c5s0` at time 0 the
equivalence and the reason-order conjuncts hold with every hypothesis
discharged. -/
theorem c2_witness :
    (canUserRequest c5s0 1 0 = .ok (true, "")
      ↔ isOkE (requestTokens c5s0 1 0 true) = true) ∧
    (0 < c5s0.nextRequestTime 1 → canUserRequest c5s0 1 0 = .ok (false, "Cooldown active")) ∧
    (c5s0.nextRequestTime 1 ≤ 0 →
      dailyEff c5s0 1 0 + c5s0.tokensPerRequest ≤ UINT_MAX →
      c5s0.maxTokensPerDay < dailyEff c5s0 1 0 + c5s0.tokensPerRequest →
      canUserRequest c5s0 1 0 = .ok (false, "Daily limit exceeded")) ∧
    (c5s0.nextRequestTime 1 ≤ 0 →
      dailyEff c5s0 1 0 + c5s0.tokensPerRequest ≤ UINT_MAX →
      dailyEff c5s0 1 0 + c5s0.tokensPerRequest ≤ c5s0.maxTokensPerDay →
      c5s0.poolBalance < c5s0.tokensPerRequest →
      canUserRequest c5s0 1 0 = .ok (false, "Insufficient faucet balance")) ∧
    (c5s0.nextRequestTime 1 ≤ 0 →
      dailyEff c5s0 1 0 + c5s0.tokensPerRequest ≤ UINT_MAX →
      dailyEff c5s0 1 0 + c5s0.tokensPerRequest ≤ c5s0.maxTokensPerDay →
      c5s0.tokensPerRequest ≤ c5s0.poolBalance → c5s0.paused = true →
      canUserRequest c5s0 1 0 = .ok (false, "Faucet is paused")) :=
  c2_canUserRequest_consistent c5s0 1 0 (by decide) (by decide) (by decide)

/-- C3, counterexample to the claim as stated: `loweredState` is reachable by
the contract's own operations (deploy, deposit, requestTokens,
updateFaucetConfig), its `lastRequestDay[1]` equals the current day index at
time 0, and yet `dailyRequested[1] = 10` exceeds `maxTokensPerDay = 5`. -/
theorem c3_counterexample :
    Reachable loweredState ∧
    loweredState.lastRequestDay 1 = 0 / 86400 ∧
    loweredState.maxTokensPerDay < loweredState.dailyRequested 1 := by
  exact ⟨⟨7, 10, 0, 10, loweredTrace, rfl⟩, rfl, by decide⟩

/-- C3 (amended): the invariant `dailyRequested[addr] ≤ maxTokensPerDay`
(whenever `lastRequestDay[addr]` equals the current day index) holds in every
state reachable from a deployment by operation sequences in which no
`updateFaucetConfig` call lowers `maxTokensPerDay` below its current value. -/
theorem c3_daily_cap_invariant (deployer tpr cd mx : Nat) (ops : List Op) (a t : Nat)
    (hmono : monoCfg (initState deployer tpr cd mx) ops = true)
    (_hday : (execTrace (initState deployer tpr cd mx) ops).lastRequestDay a = t / 86400) :
    (execTrace (initState deployer tpr cd mx) ops).dailyRequested a
      ≤ (execTrace (initState deployer tpr cd mx) ops).maxTokensPerDay := by
  have hinv : DailyInv (initState deployer tpr cd mx) := fun x => Nat.zero_le _
  exact monoCfg_dailyInv ops (initState deployer tpr cd mx) hinv hmono a

/-- Witness for C3: after deposit and one claim (no config change), address 1
has used 10 of the cap 10 in the current day bucket. -/
theorem c3_witness :
    (execTrace (initState 7 10 0 10)
        [.depositOp 2 100 true, .requestOp 1 0 true]).dailyRequested 1
      ≤ (execTrace (initState 7 10 0 10)
        [.depositOp 2 100 true, .requestOp 1 0 true]).maxTokensPerDay :=
  c3_daily_cap_invariant 7 10 0 10 [.depositOp 2 100 true, .requestOp 1 0 true] 1 0
    (by decide) (by decide)

/-- C4: in the reachable state `loweredState` (owner lowered `maxTokensPerDay`
to 5 after address 1 claimed 10 today), `requestTokens` by address 1 aborts
with the checked-arithmetic revert from the underflowing
`maxTokensPerDay - dailyRequested[user]` payload rather than with the typed
`DailyLimitExceeded` error, while `canUserRequest` in the same state still
returns the graceful `(false, "Daily limit exceeded")`. -/
theorem c4_underflow_divergence :
    Reachable loweredState ∧
    loweredState.maxTokensPerDay < loweredState.dailyRequested 1 ∧
    loweredState.lastRequestDay 1 = 0 / 86400 ∧
    requestTokens loweredState 1 0 true = .error .ArithmeticRevert ∧
    isDailyLimitErr (requestTokens loweredState 1 0 true) = false ∧
    canUserRequest loweredState 1 0 = .ok (false, "Daily limit exceeded") := by
  exact ⟨⟨7, 10, 0, 10, loweredTrace, rfl⟩, by decide, rfl, rfl, rfl, rfl⟩

/-- C5: with config `{tokensPerRequest 10, cooldownTime 86400,
maxTokensPerDay 10}` and pool 100, a fresh address claims at `t = 0`
successfully (pool 90, `nextRequestTime = 86400`), fails at `t = 100` with
`CooldownActive 86300`, and succeeds again at `t = 86400` (the day index has
advanced, so the daily counter rolls over) leaving pool 80. -/
theorem c5_scenario :
    c5s0.poolBalance = 100 ∧
    isOkE (requestTokens c5s0 1 0 true) = true ∧
    c5s1.poolBalance = 90 ∧
    c5s1.nextRequestTime 1 = 86400 ∧
    requestTokens c5s1 1 100 true = .error (.CooldownActive 86300) ∧
    isOkE (requestTokens c5s1 1 86400 true) = true ∧
    c5s2.poolBalance = 80 ∧
    c5s2.lastRequestDay 1 = 1 ∧
    c5s2.dailyRequested 1 = 10 := by
  exact ⟨rfl, rfl, rfl, rfl, rfl, rfl, rfl, rfl, rfl⟩

/-- C6: `updateFaucetConfig` succeeds for every nonzero `tokensPerRequest`
with no further validation — in particular it accepts `maxTokensPerDay` below
`tokensPerRequest`, replaces all three config values and sets
`minTokenBalance = tokensPerRequest` — rejects `tokensPerRequest = 0` with
`InvalidAmount` changing nothing, and after a `{10, _, 5}` config every claim
by an address with zero effective daily usage fails `DailyLimitExceeded 5`
even with cooldown satisfied and the pool funded. -/
theorem c6_config_permissive :
    (∀ s : FaucetState, ∀ tpr cd mx : Nat, tpr ≠ 0 →
      updateFaucetConfig s tpr cd mx
        = .ok ({ s with tokensPerRequest := tpr, cooldownTime := cd,
                        maxTokensPerDay := mx, minTokenBalance := tpr },
               [.FaucetConfigUpdated tpr cd mx])) ∧
    (∀ s : FaucetState, ∀ cd mx : Nat,
      updateFaucetConfig s 0 cd mx = .error .InvalidAmount ∧
      applyOp s (.configOp 0 cd mx) = s) ∧
    (∀ s : FaucetState, ∀ u t : Nat, ∀ tk : Bool,
      s.tokensPerRequest = 10 → s.maxTokensPerDay = 5 → s.paused = false →
      s.nextRequestTime u ≤ t → dailyEff s u t = 0 → 10 ≤ s.poolBalance →
      requestTokens s u t tk = .error (.DailyLimitExceeded 5)) := by
  refine ⟨?_, ?_, ?_⟩
  · intro s tpr cd mx h
    simp [updateFaucetConfig, h]
  · intro s cd mx
    exact ⟨by simp [updateFaucetConfig], by simp [applyOp, updateFaucetConfig]⟩
  · intro s u t tk h10 h5 hp hc hde hpool
    have hlim := requestTokens_daily_limit s u t tk hp hc
      (by rw [hde, h10]; exact by decide)
      (by rw [hde, h10, h5]; exact by decide)
      (by rw [hde]; exact Nat.zero_le _)
    rw [hlim, hde, h5]

/-- Witness for C6: the permissive reconfiguration to `{10, 0, 5}` on a fresh
faucet, the `InvalidAmount` rejection of a zero amount, and the permanently
blocked claim on the funded reconfigured state `c6State`. -/
theorem c6_witness :
    updateFaucetConfig (initState 7 10 0 10) 10 0 5
      = .ok ({ initState 7 10 0 10 with
                 tokensPerRequest := 10, cooldownTime := 0,
                 maxTokensPerDay := 5, minTokenBalance := 10 },
             [.FaucetConfigUpdated 10 0 5]) ∧
    updateFaucetConfig (initState 7 10 0 10) 0 0 5 = .error .InvalidAmount ∧
    requestTokens c6State 1 0 true = .error (.DailyLimitExceeded 5) := by
  obtain ⟨h1, h2, h3⟩ := c6_config_permissive
  exact ⟨h1 (initState 7 10 0 10) 10 0 5 (by decide),
         (h2 (initState 7 10 0 10) 0 5).1,
         h3 c6State 1 0 true rfl rfl rfl (by decide) (by decide) (by decide)⟩

/-- C7: from any deployment, `totalTokensDistributed` always equals the sum of
the amounts of the trace's successful `requestTokens` invocations and
`totalRequests` their count; no single operation decreases either counter; and
`getFaucetStats` reports exactly the stored values. -/
theorem c7_stats_accounting :
    (∀ deployer tpr cd mx : Nat, ∀ ops : List Op,
      (execTrace (initState deployer tpr cd mx) ops).totalTokensDistributed
        = (claimLog (initState deployer tpr cd mx) ops).sum ∧
      (execTrace (initState deployer tpr cd mx) ops).totalRequests
        = (claimLog (initState deployer tpr cd mx) ops).length) ∧
    (∀ s : FaucetState, ∀ op : Op,
      s.totalRequests ≤ (applyOp s op).totalRequests ∧
      s.totalTokensDistributed ≤ (applyOp s op).totalTokensDistributed) ∧
    (∀ s : FaucetState,
      getFaucetStats s
        = (s.poolBalance, s.totalRequests, s.totalTokensDistributed,
           s.tokensPerRequest)) := by
  refine ⟨?_, applyOp_stats_mono, fun s => rfl⟩
  intro d tpr cd mx ops
  obtain ⟨h1, h2⟩ := execTrace_stats ops (initState d tpr cd mx)
  constructor
  · rw [h1]
    simp [initState]
  · rw [h2]
    simp [initState]

/-- C8: `resetUserCooldown(A)` sets `nextRequestTime[A]` to 0 and changes
nothing else (the returned state is the input with only that one mapping entry
rewritten); a subsequent claim by A can never fail `CooldownActive`, yet a
committing claim still satisfies the daily-cap check. -/
theorem c8_reset_frame (s : FaucetState) (u : Nat) :
    resetUserCooldown s u
      = .ok ({ s with nextRequestTime := setMap s.nextRequestTime u 0 }, []) ∧
    setMap s.nextRequestTime u 0 u = 0 ∧
    (∀ a, a ≠ u → setMap s.nextRequestTime u 0 a = s.nextRequestTime a) ∧
    (∀ t r, ∀ tk : Bool,
      requestTokens { s with nextRequestTime := setMap s.nextRequestTime u 0 } u t tk
        ≠ .error (.CooldownActive r)) ∧
    (∀ t : Nat, ∀ tk : Bool, ∀ p,
      requestTokens { s with nextRequestTime := setMap s.nextRequestTime u 0 } u t tk
          = .ok p →
      dailyEff s u t + s.tokensPerRequest ≤ s.maxTokensPerDay) := by
  refine ⟨rfl, setMap_same s.nextRequestTime u 0, ?_, ?_, ?_⟩
  · intro a ha
    exact setMap_other s.nextRequestTime u 0 a ha
  · intro t r tk h
    rw [requestTokens_eq_alt] at h
    simp only [requestTokensAlt, setMap_same] at h
    simp only [Nat.not_lt_zero, if_false] at h
    split_ifs at h <;> simp at h
  · intro t tk p h
    obtain ⟨-, -, -, hd, -⟩ :=
      (requestTokens_ok_iff { s with nextRequestTime := setMap s.nextRequestTime u 0 }
        u t tk p).mp h
    exact hd

/-- Witness for C8: on the funded fresh faucet `c5s0`, resetting address 1's
cooldown leaves everything else intact, the claim cannot fail `CooldownActive`,
and the committing claim at time 0 respects the daily cap. -/
theorem c8_witness :
    resetUserCooldown c5s0 1
      = .ok ({ c5s0 with nextRequestTime := setMap c5s0.nextRequestTime 1 0 }, []) ∧
    setMap c5s0.nextRequestTime 1 0 1 = 0 ∧
    setMap c5s0.nextRequestTime 1 0 2 = c5s0.nextRequestTime 2 ∧
    (requestTokens { c5s0 with nextRequestTime := setMap c5s0.nextRequestTime 1 0 } 1 5 true
      ≠ .error (.CooldownActive 3)) ∧
    dailyEff c5s0 1 0 + c5s0.tokensPerRequest ≤ c5s0.maxTokensPerDay := by
  obtain ⟨h1, h2, h3, h4, h5⟩ := c8_reset_frame c5s0 1
  exact ⟨h1, h2, h3 2 (by decide), h4 5 3 true, h5 0 true _ rfl⟩

/-- C9: the constructor rejects only a zero token address with
`InvalidAddress`; it accepts an all-zero configuration that
`updateFaucetConfig` itself would reject with `InvalidAmount`. -/
theorem c9_constructor_permissive :
    (∀ deployer tpr cd mx : Nat, mkFaucet deployer 0 tpr cd mx = .error .InvalidAddress) ∧
    (∀ deployer token : Nat, token ≠ 0 →
      mkFaucet deployer token 0 0 0 = .ok (initState deployer 0 0 0)) ∧
    (∀ s : FaucetState, ∀ cd mx : Nat,
      updateFaucetConfig s 0 cd mx = .error .InvalidAmount) := by
  refine ⟨?_, ?_, ?_⟩
  · intro d tpr cd mx
    simp [mkFaucet]
  · intro d token h
    simp [mkFaucet, h]
  · intro s cd mx
    simp [updateFaucetConfig]

/-- Witness for C9: concrete instances of the three conjuncts. -/
theorem c9_witness :
    mkFaucet 7 0 1 2 3 = .error .InvalidAddress ∧
    mkFaucet 7 5 0 0 0 = .ok (initState 7 0 0 0) ∧
    updateFaucetConfig (initState 7 0 0 0) 0 1 2 = .error .InvalidAmount := by
  obtain ⟨h1, h2, h3⟩ := c9_constructor_permissive
  exact ⟨h1 7 1 2 3, h2 7 5 (by decide), h3 (initState 7 0 0 0) 1 2⟩

/-- C10: `withdrawTokens 0` by the owner on an empty pool does not fail
`InsufficientFaucetBalance`: the amount is replaced by the balance 0, the
check passes, and on transfer success the call commits with a
`TokensWithdrawn(owner, 0)` notification and an unchanged state. -/
theorem c10_withdraw_zero (s : FaucetState) (h : s.poolBalance = 0) :
    withdrawTokens s 0 true = .ok (s, [.TokensWithdrawn s.owner 0]) ∧
    isOkE (withdrawTokens s 0 true) = true := by
  have hs : ({ s with poolBalance := 0 - 0 } : FaucetState) = s := by
    have h0 : (0 - 0 : Nat) = s.poolBalance := by omega
    rw [h0]
  have hw : withdrawTokens s 0 true = .ok (s, [.TokensWithdrawn s.owner 0]) := by
    simp only [withdrawTokens, if_pos rfl, Nat.lt_irrefl, if_false, if_true, h]
    rw [hs]
  exact ⟨hw, by rw [hw]; rfl⟩

/-- Witness for C10: the fresh faucet has an empty pool; withdrawing 0
commits, emits `TokensWithdrawn(7, 0)` and changes nothing. -/
theorem c10_witness :
    withdrawTokens (initState 7 10 0 10) 0 true
      = .ok (initState 7 10 0 10, [.TokensWithdrawn 7 0]) ∧
    isOkE (withdrawTokens (initState 7 10 0 10) 0 true) = true :=
  c10_withdraw_zero (initState 7 10 0 10) rfl

end XFIFaucet
